import Mathlib

/-!
# TcpConnector: cancellable outbound TCP connect on a cooperative dispatcher

A shallow embedding of `src/Platform/Linux/System/TcpConnector.cpp` (the
readiness backend, epoll) and `src/Platform/Windows/System/TcpConnector.cpp`
(the completion backend, overlapped I/O).

* Operating-system calls are fallible: each call site takes its result from an
  oracle value `Except code value` (`.ok v` = the call succeeded and produced
  `v`, `.error e` = the call reported failure with error code `e`).
* `errno` is a piece of world state on Linux: a failing call stores its code,
  a succeeding call leaves it untouched.
* Every effect on a descriptor, on the reactor and on the scheduler is
  appended to a trace (newest first), so that "closed exactly once",
  "no suspension" and orderings are statements about the trace.
* `connect` suspends in the middle (`dispatcher->dispatch()`); it is embedded
  as the part up to the suspension (`connect`) and the continuation after it
  (`connectResumed`). While it is suspended the stack-allocated operation
  context is reachable through the connector's `context` pointer; the
  embedding stores the pointee there.
* `assert(...)` is active: a failing assertion yields `Outcome.assertFailed`
  and leaves the state as it was.
-/

namespace System

/-- Effects recorded in the world trace. -/
inductive Event
  /-- A descriptor was allocated by `socket`. -/
  | socket (fd : Nat)
  /-- A `close` / `closesocket` call on the descriptor succeeded. -/
  | close (fd : Nat)
  /-- A `close` / `closesocket` call on the descriptor was issued and failed. -/
  | closeFailed (fd : Nat)
  /-- The platform connect primitive (`::connect`, `ConnectEx`) was issued on
  the descriptor for the target address and port. -/
  | connect (fd : Nat) (address : Nat) (port : Nat)
  /-- The descriptor was registered with the reactor (`epoll_ctl` ADD,
  `CreateIoCompletionPort`). -/
  | registered (fd : Nat)
  /-- The descriptor was removed from the reactor (`epoll_ctl` DEL). -/
  | unregistered (fd : Nat)
  /-- The running fiber suspended itself in `dispatcher->dispatch()`. -/
  | dispatch (fiber : Nat)
  /-- The operation context of the descriptor got `interrupted = true`. -/
  | interruptedSet (fd : Nat)
  /-- A fiber was put on the ready list by `dispatcher->pushContext`. -/
  | pushContext (fiber : Option Nat)
  /-- A `CancelIoEx` request was issued for the descriptor. -/
  | cancelRequested (fd : Nat)
  deriving DecidableEq

/-- How a call of `start`, `stop` or `connect` ends. -/
inductive Outcome
  /-- A `void` method returned. -/
  | done
  /-- The call returned `TcpConnection(*dispatcher, connection)`. -/
  | connection (dispatcher : Nat) (fd : Nat)
  /-- The call threw `InterruptedException`. -/
  | interrupted
  /-- The call threw `std::runtime_error(what)`. -/
  | runtimeError (what : String)
  /-- An `assert` did not hold. -/
  | assertFailed
  /-- The fiber is suspended inside `dispatcher->dispatch()`. -/
  | suspended
  deriving DecidableEq

/-- Number of successful closes of `fd` in a trace. -/
def closeCount (fd : Nat) (trace : List Event) : Nat :=
  trace.count (Event.close fd)

/-- Number of times a fiber was put on the ready list in a trace. -/
def pushCount (fiber : Option Nat) (trace : List Event) : Nat :=
  trace.count (Event.pushContext fiber)

/-- Number of descriptors allocated in a trace. -/
def socketCount (trace : List Event) : Nat :=
  (trace.filter (fun e => match e with | Event.socket _ => true | _ => false)).length

/-! ## Readiness backend (Linux, epoll) -/

namespace Linux

/-- The `errno` value "operation now in progress" of `<errno.h>`. -/
def EINPROGRESS : Int := 115

/-- The epoll event bit `EPOLLERR` of `<sys/epoll.h>`. -/
def EPOLLERR : Nat := 0x008

/-- The epoll event bit `EPOLLHUP` of `<sys/epoll.h>`. -/
def EPOLLHUP : Nat := 0x010

/-- The record `TcpConnectorContextExt : Dispatcher::OperationContext`: the
suspended fiber (`context`, `none` = `nullptr`), the `interrupted` flag, the
epoll `events` the reactor reported, and the descriptor `connection`. -/
structure TcpConnectorContextExt where
  context : Option Nat
  interrupted : Bool
  events : Nat
  connection : Nat
  deriving DecidableEq

/-- The fields of `TcpConnector`: `dispatcher` (`none` = `nullptr`), the
active operation `context` (`none` = `nullptr`) and the `stopped` flag. -/
structure TcpConnector where
  dispatcher : Option Nat
  context : Option TcpConnectorContextExt
  stopped : Bool
  deriving DecidableEq

/-- World state next to the connector: the thread's `errno` and the trace. -/
structure World where
  errno : Int
  trace : List Event
  deriving DecidableEq

/-- A failing system call stores its error code in `errno`. -/
def World.fail (w : World) (e : Int) : World := { w with errno := e }

/-- Append an effect to the trace. -/
def World.log (w : World) (ev : Event) : World := { w with trace := ev :: w.trace }

/-- The call `close(fd)`: `true` when it succeeded (did not return -1). -/
def sysClose (r : Except Int Unit) (fd : Nat) (w : World) : Bool × World :=
  match r with
  | .ok _ => (true, w.log (.close fd))
  | .error e => (false, (w.fail e).log (.closeFailed fd))

/-- The constructor `TcpConnector::TcpConnector(Dispatcher& dispatcher)`:
`dispatcher(&dispatcher), context(nullptr), stopped(false)`. -/
def TcpConnector.construct (dispatcher : Nat) : TcpConnector :=
  { dispatcher := some dispatcher, context := none, stopped := false }

/-- The method `TcpConnector::start`. -/
def start (t : TcpConnector) : Outcome × TcpConnector :=
  if t.dispatcher.isNone then (.assertFailed, t)
  else if !t.stopped then (.assertFailed, t)
  else (.done, { t with stopped := false })

/-- The method `TcpConnector::stop`; `close` is the result of the `close`
call it may issue. -/
def stop (t : TcpConnector) (w : World) (close : Except Int Unit) :
    Outcome × TcpConnector × World :=
  if t.dispatcher.isNone then (.assertFailed, t, w)
  else if t.stopped then (.assertFailed, t, w)
  else
    match t.context with
    | some connectorContext =>
      if !connectorContext.interrupted then
        match sysClose close connectorContext.connection w with
        | (false, w1) =>
          (.runtimeError ("TcpListener::stop, close failed, errno=" ++ toString w1.errno), t, w1)
        | (true, w1) =>
          let w2 := w1.log (.interruptedSet connectorContext.connection)
          let w3 := w2.log (.pushContext connectorContext.context)
          (.done, { t with context := some { connectorContext with interrupted := true },
                           stopped := true }, w3)
      else (.done, { t with stopped := true }, w)
    | none => (.done, { t with stopped := true }, w)

/-- Results of the calls `connect` makes before it suspends, in source order:
`socket`, `bind`, `fcntl(F_GETFL)` (the flags), `fcntl(F_SETFL)`, `::connect`,
`dispatcher->getCurrentContext()`, the uninitialised `events` field of the
fresh context, `epoll_ctl(EPOLL_CTL_ADD)`, and the `close` of the common
failure exit. -/
structure ConnectCalls where
  socket : Except Int Nat
  bind : Except Int Unit
  fcntlGet : Except Int Nat
  fcntlSet : Except Int Unit
  connect : Except Int Unit
  currentContext : Nat
  staleEvents : Nat
  epollCtlAdd : Except Int Unit
  close : Except Int Unit

/-- Results of the calls `connect` makes after it resumed:
`dispatcher->getCurrentContext()`, `epoll_ctl(EPOLL_CTL_DEL)`,
`getsockopt(SO_ERROR)` (the value stored in `retval`) and `close`. -/
structure ResumeCalls where
  currentContext : Nat
  epollCtlDel : Except Int Unit
  getsockopt : Except Int Int
  close : Except Int Unit

/-- The common failure exit of `connect` (lines 185-190):
`int result = close(connection); assert(result != -1);`
`throw std::runtime_error("TcpConnector::connect, " + message)`. -/
def closeAndThrow (t : TcpConnector) (w : World) (connection : Nat)
    (close : Except Int Unit) (message : String) : Outcome × TcpConnector × World :=
  match sysClose close connection w with
  | (false, w1) => (.assertFailed, t, w1)
  | (true, w1) => (.runtimeError ("TcpConnector::connect, " ++ message), t, w1)

/-- The method `TcpConnector::connect` up to and including the suspension in
`dispatcher->dispatch()` (lines 96-143). -/
def connect (t : TcpConnector) (w : World) (os : ConnectCalls) (address port : Nat) :
    Outcome × TcpConnector × World :=
  match t.dispatcher with
  | none => (.assertFailed, t, w)
  | some dispatcher =>
    if t.context.isSome then (.assertFailed, t, w)
    else if t.stopped then (.interrupted, t, w)
    else
      match os.socket with
      | .error e =>
        let w1 := w.fail e
        (.runtimeError ("TcpConnector::connect, " ++ ("socket() failed, errno=" ++ toString w1.errno)),
          t, w1)
      | .ok connection =>
        let w1 := w.log (.socket connection)
        match os.bind with
        | .error e =>
          let w2 := w1.fail e
          closeAndThrow t w2 connection os.close ("bind failed, errno=" ++ toString w2.errno)
        | .ok _ =>
          match os.fcntlGet, os.fcntlSet with
          | .error e, _ =>
            let w2 := w1.fail e
            closeAndThrow t w2 connection os.close ("fcntl() failed errno=" ++ toString w2.errno)
          | .ok _, .error e =>
            let w2 := w1.fail e
            closeAndThrow t w2 connection os.close ("fcntl() failed errno=" ++ toString w2.errno)
          | .ok _, .ok _ =>
            let w1 := w1.log (.connect connection address port)
            match os.connect with
            | .error e =>
              let w2 := w1.fail e
              if w2.errno = EINPROGRESS then
                let connectorContext : TcpConnectorContextExt :=
                  { context := some os.currentContext, interrupted := false,
                    events := os.staleEvents, connection := connection }
                match os.epollCtlAdd with
                | .error e2 =>
                  let w3 := w2.fail e2
                  closeAndThrow t w3 connection os.close
                    ("epoll_ctl() failed, errno=" ++ toString w3.errno)
                | .ok _ =>
                  let w3 := w2.log (.registered connection)
                  (.suspended, { t with context := some connectorContext },
                    w3.log (.dispatch os.currentContext))
              else
                closeAndThrow t w2 connection os.close ""
            | .ok _ => (.connection dispatcher connection, t, w1)

/-- The method `TcpConnector::connect` from the return of
`dispatcher->dispatch()` on (lines 144-190). The operation context is the one
the connector's `context` pointer refers to. -/
def connectResumed (t : TcpConnector) (w : World) (os : ResumeCalls) :
    Outcome × TcpConnector × World :=
  match t.dispatcher with
  | none => (.assertFailed, t, w)
  | some dispatcher =>
    match t.context with
    | none => (.assertFailed, t, w)
    | some connectorContext =>
      if connectorContext.context ≠ some os.currentContext then (.assertFailed, t, w)
      else
        let t1 := { t with context := none }
        let connection := connectorContext.connection
        if connectorContext.interrupted then (.interrupted, t1, w)
        else
          match os.epollCtlDel with
          | .error e =>
            let w1 := w.fail e
            closeAndThrow t1 w1 connection os.close
              ("epoll_ctl() failed, errno=" ++ toString w1.errno)
          | .ok _ =>
            let w1 := w.log (.unregistered connection)
            if connectorContext.events &&& (EPOLLERR ||| EPOLLHUP) ≠ 0 then
              match sysClose os.close connection w1 with
              | (false, w2) => (.assertFailed, t1, w2)
              | (true, w2) =>
                (.runtimeError "TcpConnector::connect, connection failed", t1, w2)
            else
              match os.getsockopt with
              | .error e =>
                let w2 := w1.fail e
                closeAndThrow t1 w2 connection os.close
                  ("getsockopt() failed, errno=" ++ toString w2.errno)
              | .ok retval =>
                if retval ≠ 0 then
                  closeAndThrow t1 w1 connection os.close
                    ("connect failed; getsockopt retval =" ++ toString w1.errno)
                else (.connection dispatcher connection, t1, w1)

/-- What may happen to a connector while its `connect` call is suspended:
another fiber calls `start()` or `stop()` (with the result of the `close` it
may issue), the reactor reports the one-shot event, or other fibers run
system calls that leave a different `errno`. -/
inductive Call
  | start
  | stop (close : Except Int Unit)
  | ready (events : Nat)
  | otherErrno (e : Int)

/-- Modelled from the spec: the reactor's delivery of the one-shot readiness
event (the dispatcher's event loop is not part of the sources): it records
which events fired in the operation context and puts the blocked fiber on the
ready list. -/
def reactorReady (t : TcpConnector) (w : World) (events : Nat) : TcpConnector × World :=
  match t.context with
  | some connectorContext =>
    ({ t with context := some { connectorContext with events := events } },
      w.log (.pushContext connectorContext.context))
  | none => (t, w)

/-- One call made while `connect` is suspended. A call rejected by its
assertion changes nothing. -/
def Call.run (c : Call) (s : TcpConnector × World) : TcpConnector × World :=
  match c with
  | .start => ((Linux.start s.1).2, s.2)
  | .stop close => (Linux.stop s.1 s.2 close).2
  | .ready events => reactorReady s.1 s.2 events
  | .otherErrno e => (s.1, s.2.fail e)

/-- A finite sequence of calls made while `connect` is suspended. -/
def pending (calls : List Call) (s : TcpConnector × World) : TcpConnector × World :=
  calls.foldl (fun s c => c.run s) s

/-- A whole execution of `connect`: the part up to the suspension, the calls
other fibers make while it is suspended, and the continuation, which runs in
the fiber that called `connect` (the current fiber is the same on both sides of
`dispatcher->dispatch()`). -/
def connectRun (t : TcpConnector) (w : World) (os : ConnectCalls) (address port : Nat)
    (calls : List Call) (rs : ResumeCalls) : Outcome × TcpConnector × World :=
  match connect t w os address port with
  | (.suspended, t1, w1) =>
    let s := pending calls (t1, w1)
    connectResumed s.1 s.2 { rs with currentContext := os.currentContext }
  | r => r

/-- The state of a connector whose `connect` call is suspended: it is bound
to dispatcher `d`, its published operation context belongs to `fiber` and
descriptor `fd`, and the successful closes of `fd` so far plus the one still
owed (1 until `stop()` has interrupted the operation) make `n`. -/
def Suspended (d fiber fd n : Nat) (s : TcpConnector × World) : Prop :=
  s.1.dispatcher = some d ∧
  ∃ ctx : TcpConnectorContextExt, s.1.context = some ctx ∧ ctx.connection = fd ∧
    ctx.context = some fiber ∧
    closeCount fd s.2.trace + (if ctx.interrupted then 0 else 1) = n

/-- System-call results for the asynchronous path on Linux: every call
succeeds and `::connect` reports `EINPROGRESS`. -/
def asyncCalls : ConnectCalls :=
  { socket := .ok 3, bind := .ok (), fcntlGet := .ok 2, fcntlSet := .ok (),
    connect := .error EINPROGRESS, currentContext := 7, staleEvents := 0,
    epollCtlAdd := .ok (), close := .ok () }

/-- The method `TcpConnector::stop` from its entry to the end of the
`if (context != nullptr)` block (lines 79-91): everything `stop` does before
its last statement `stopped = true` (line 93). The state it yields is the one
in which `dispatcher->pushContext` has just been called. -/
def stopCancel (t : TcpConnector) (w : World) (close : Except Int Unit) :
    Outcome × TcpConnector × World :=
  if t.dispatcher.isNone then (.assertFailed, t, w)
  else if t.stopped then (.assertFailed, t, w)
  else
    match t.context with
    | some connectorContext =>
      if !connectorContext.interrupted then
        match sysClose close connectorContext.connection w with
        | (false, w1) =>
          (.runtimeError ("TcpListener::stop, close failed, errno=" ++ toString w1.errno), t, w1)
        | (true, w1) =>
          let w2 := w1.log (.interruptedSet connectorContext.connection)
          let w3 := w2.log (.pushContext connectorContext.context)
          (.done, { t with context := some { connectorContext with interrupted := true } }, w3)
      else (.done, t, w)
    | none => (.done, t, w)

/-- The last statement of `TcpConnector::stop` (line 93), `stopped = true`,
reached when lines 79-91 neither failed an assertion nor threw. -/
def stopFinish (r : Outcome × TcpConnector × World) : Outcome × TcpConnector × World :=
  match r with
  | (.done, t, w) => (.done, { t with stopped := true }, w)
  | r => r

/-- A bound, started connector whose `connect` call is suspended: the
operation of fiber 7 on descriptor 3 is published and not interrupted. -/
def suspendedConnector : TcpConnector :=
  { dispatcher := some 0, stopped := false,
    context := some { context := some 7, interrupted := false, events := 0, connection := 3 } }

end Linux

/-! ## Completion backend (Windows, overlapped I/O) -/

namespace Windows

/-- The error code `WSA_IO_PENDING` (`ERROR_IO_PENDING`) of `<winsock2.h>`. -/
def WSA_IO_PENDING : Int := 997

/-- The error code `ERROR_OPERATION_ABORTED` of `<winerror.h>`. -/
def ERROR_OPERATION_ABORTED : Int := 995

/-- The error code `ERROR_NOT_FOUND` of `<winerror.h>`. -/
def ERROR_NOT_FOUND : Nat := 1168

/-- The record `TcpConnectorContext : OVERLAPPED`: the suspended fiber
(`context`, `none` = `nullptr`), the socket `connection` and the
`interrupted` flag. -/
structure TcpConnectorContext where
  context : Option Nat
  connection : Nat
  interrupted : Bool
  deriving DecidableEq

/-- The fields of `TcpConnector`: `dispatcher` (`none` = `nullptr`), the
`stopped` flag and the active operation `context` (`none` = `nullptr`). -/
structure TcpConnector where
  dispatcher : Option Nat
  stopped : Bool
  context : Option TcpConnectorContext
  deriving DecidableEq

/-- World state next to the connector: whether the file-level pointer
`connectEx` has been resolved (is not `nullptr`), and the trace. -/
structure World where
  connectEx : Bool
  trace : List Event
  deriving DecidableEq

/-- Append an effect to the trace. -/
def World.log (w : World) (ev : Event) : World := { w with trace := ev :: w.trace }

/-- The constructor `TcpConnector::TcpConnector(Dispatcher& dispatcher)`:
`dispatcher(&dispatcher), stopped(false), context(nullptr)`. -/
def TcpConnector.construct (dispatcher : Nat) : TcpConnector :=
  { dispatcher := some dispatcher, stopped := false, context := none }

/-- The method `TcpConnector::start`. -/
def start (t : TcpConnector) : Outcome × TcpConnector :=
  if t.dispatcher.isNone then (.assertFailed, t)
  else if !t.stopped then (.assertFailed, t)
  else (.done, { t with stopped := false })

/-- The method `TcpConnector::stop`; `cancelIoEx` is the result of the
`CancelIoEx` call it may issue (`.ok` = it returned `TRUE`, `.error e` = it
did not and `GetLastError()` is `e`). -/
def stop (t : TcpConnector) (w : World) (cancelIoEx : Except Nat Unit) :
    Outcome × TcpConnector × World :=
  if t.dispatcher.isNone then (.assertFailed, t, w)
  else if t.stopped then (.assertFailed, t, w)
  else
    match t.context with
    | some context2 =>
      if !context2.interrupted then
        let w1 := w.log (.cancelRequested context2.connection)
        let marked : Outcome × TcpConnector × World :=
          (.done, { t with context := some { context2 with interrupted := true },
                           stopped := true },
            w1.log (.interruptedSet context2.connection))
        match cancelIoEx with
        | .error lastError =>
          if lastError ≠ ERROR_NOT_FOUND then
            (.runtimeError ("TcpConnector::stop, CancelIoEx failed, result=" ++ toString lastError),
              t, w1)
          else marked
        | .ok _ => marked
      else (.done, { t with stopped := true }, w)
    | none => (.done, { t with stopped := true }, w)

/-- Results of the calls `connect` makes before it suspends, in source order:
`socket`, `bind`, `WSAIoctl` (`.ok b`: it returned 0 and `b` tells whether the
byte count it stored in `read` equals `sizeof connectEx`),
`CreateIoCompletionPort` (`.ok` = it returned the dispatcher's port),
`connectEx` (`.ok` = it returned `TRUE`, `.error e` = it did not and
`WSAGetLastError()` is `e`), `GetCurrentFiber()`, and the `closesocket` of the
common failure exit. -/
structure ConnectCalls where
  socket : Except Int Nat
  bind : Except Int Unit
  wsaIoctl : Except Int Bool
  createIoCompletionPort : Except Nat Unit
  connectEx : Except Int Unit
  currentFiber : Nat
  closesocket : Except Int Unit

/-- Results of the calls `connect` makes after it resumed: `GetCurrentFiber()`,
`WSAGetOverlappedResult` (`.ok (transferred, flags)` = it returned `TRUE`),
`closesocket` and `setsockopt(SO_UPDATE_CONNECT_CONTEXT)`. -/
structure ResumeCalls where
  currentFiber : Nat
  overlappedResult : Except Int (Nat × Nat)
  closesocket : Except Int Unit
  setsockopt : Except Int Unit

/-- The common failure exit of `connect` (lines 183-187):
`int result = closesocket(connection); assert(result == 0);`
`throw std::runtime_error("TcpConnector::connect, " + message)`. -/
def closeAndThrow (t : TcpConnector) (w : World) (connection : Nat)
    (closesocket : Except Int Unit) (message : String) : Outcome × TcpConnector × World :=
  match closesocket with
  | .error _ => (.assertFailed, t, w.log (.closeFailed connection))
  | .ok _ => (.runtimeError ("TcpConnector::connect, " ++ message), t, w.log (.close connection))

/-- The condition `connectEx == nullptr && WSAIoctl(...) != 0` of line 123 and
its effects: with the pointer already resolved `WSAIoctl` is not called and
`read` keeps its initial value `sizeof connectEx`; otherwise a successful
`WSAIoctl` stores the pointer and the byte count. `.error e` = the condition
holds and `WSAGetLastError()` is `e`; `.ok (w, b)` = it does not hold, and `b`
tells whether `read == sizeof connectEx`. -/
def resolveConnectEx (w : World) (wsaIoctl : Except Int Bool) : Except Int (World × Bool) :=
  if w.connectEx then .ok (w, true)
  else
    match wsaIoctl with
    | .error e => .error e
    | .ok readOk => .ok ({ w with connectEx := true }, readOk)

/-- The method `TcpConnector::connect` up to and including the suspension in
`dispatcher->dispatch()` (lines 102-147). -/
def connect (t : TcpConnector) (w : World) (os : ConnectCalls) (address port : Nat) :
    Outcome × TcpConnector × World :=
  match t.dispatcher with
  | none => (.assertFailed, t, w)
  | some _ =>
    if t.context.isSome then (.assertFailed, t, w)
    else if t.stopped then (.interrupted, t, w)
    else
      match os.socket with
      | .error e =>
        (.runtimeError ("TcpConnector::connect, " ++ ("socket failed, result=" ++ toString e)),
          t, w)
      | .ok connection =>
        let w1 := w.log (.socket connection)
        match os.bind with
        | .error e =>
          closeAndThrow t w1 connection os.closesocket ("bind failed, result=" ++ toString e)
        | .ok _ =>
          match resolveConnectEx w1 os.wsaIoctl with
          | .error e =>
            closeAndThrow t w1 connection os.closesocket
              ("WSAIoctl failed, result=" ++ toString e)
          | .ok (w2, readOk) =>
            if !readOk then (.assertFailed, t, w2)
            else
              match os.createIoCompletionPort with
              | .error e =>
                closeAndThrow t w2 connection os.closesocket
                  ("CreateIoCompletionPort failed, result=" ++ toString e)
              | .ok _ =>
                let w3 := (w2.log (.registered connection)).log
                  (.connect connection address port)
                match os.connectEx with
                | .ok _ =>
                  closeAndThrow t w3 connection os.closesocket
                    "ConnectEx returned immediately, which is not supported."
                | .error lastError =>
                  if lastError ≠ WSA_IO_PENDING then
                    closeAndThrow t w3 connection os.closesocket
                      ("ConnectEx failed, result=" ++ toString lastError)
                  else
                    let context2 : TcpConnectorContext :=
                      { context := some os.currentFiber, connection := connection,
                        interrupted := false }
                    (.suspended, { t with context := some context2 },
                      w3.log (.dispatch os.currentFiber))

/-- The method `TcpConnector::connect` from the return of
`dispatcher->dispatch()` on (lines 148-188). The operation context is the one
the connector's `context` pointer refers to; the local `connection` is the
descriptor stored in it. -/
def connectResumed (t : TcpConnector) (w : World) (os : ResumeCalls) :
    Outcome × TcpConnector × World :=
  match t.dispatcher with
  | none => (.assertFailed, t, w)
  | some dispatcher =>
    match t.context with
    | none => (.assertFailed, t, w)
    | some context2 =>
      if context2.context ≠ some os.currentFiber then (.assertFailed, t, w)
      else
        let t1 := { t with context := none }
        let connection := context2.connection
        match os.overlappedResult with
        | .error lastError =>
          if lastError ≠ ERROR_OPERATION_ABORTED then
            closeAndThrow t1 w connection os.closesocket
              ("ConnectEx failed, result=" ++ toString lastError)
          else if !context2.interrupted then (.assertFailed, t1, w)
          else
            match os.closesocket with
            | .error e =>
              (.runtimeError ("TcpConnector::connect, closesocket failed, result=" ++ toString e),
                t1, w.log (.closeFailed connection))
            | .ok _ => (.interrupted, t1, w.log (.close connection))
        | .ok (transferred, flags) =>
          if transferred ≠ 0 then (.assertFailed, t1, w)
          else if flags ≠ 0 then (.assertFailed, t1, w)
          else
            match os.setsockopt with
            | .error e =>
              closeAndThrow t1 w connection os.closesocket
                ("setsockopt failed, result=" ++ toString e)
            | .ok _ => (.connection dispatcher connection, t1, w)

/-- What may happen to a connector while its `connect` call is suspended:
another fiber calls `start()` or `stop()` (with the result of the `CancelIoEx`
it may issue). -/
inductive Call
  | start
  | stop (cancelIoEx : Except Nat Unit)

/-- One call made while `connect` is suspended. A call rejected by its
assertion changes nothing. -/
def Call.run (c : Call) (s : TcpConnector × World) : TcpConnector × World :=
  match c with
  | .start => ((Windows.start s.1).2, s.2)
  | .stop cancelIoEx => (Windows.stop s.1 s.2 cancelIoEx).2

/-- A finite sequence of calls made while `connect` is suspended. -/
def pending (calls : List Call) (s : TcpConnector × World) : TcpConnector × World :=
  calls.foldl (fun s c => c.run s) s

/-- A whole execution of `connect`: the part up to the suspension, the calls
other fibers make while it is suspended, and the continuation, which runs in
the fiber that called `connect` (the current fiber is the same on both sides of
`dispatcher->dispatch()`). -/
def connectRun (t : TcpConnector) (w : World) (os : ConnectCalls) (address port : Nat)
    (calls : List Call) (rs : ResumeCalls) : Outcome × TcpConnector × World :=
  match connect t w os address port with
  | (.suspended, t1, w1) =>
    let s := pending calls (t1, w1)
    connectResumed s.1 s.2 { rs with currentFiber := os.currentFiber }
  | r => r

/-- The state of a connector whose `connect` call is suspended: it is bound
to dispatcher `d`, its published operation context belongs to `fiber` and
socket `fd`, and `fd` has been closed successfully `n` times so far. -/
def Suspended (d fiber fd n : Nat) (s : TcpConnector × World) : Prop :=
  s.1.dispatcher = some d ∧
  ∃ ctx : TcpConnectorContext, s.1.context = some ctx ∧ ctx.connection = fd ∧
    ctx.context = some fiber ∧ closeCount fd s.2.trace = n

/-- System-call results for the asynchronous path on Windows: every call
succeeds and `ConnectEx` reports `WSA_IO_PENDING`. -/
def asyncCalls : ConnectCalls :=
  { socket := .ok 3, bind := .ok (), wsaIoctl := .ok true, createIoCompletionPort := .ok (),
    connectEx := .error WSA_IO_PENDING, currentFiber := 7, closesocket := .ok () }

end Windows

/-! ## Auxiliary lemmas -/

namespace Linux

/-- Every call made while `connect` is suspended keeps the `Suspended` invariant
(readiness backend). -/
theorem readiness_suspended_step (c : Call) (d fiber fd n : Nat) (s : TcpConnector × World)
    (h : Suspended d fiber fd n s) : Suspended d fiber fd n (c.run s) := by
  obtain ⟨⟨dd, ctx, stopped⟩, w⟩ := s
  obtain ⟨hd, ctx0, hctx, hfd, hf, hn⟩ := h
  simp only at hd hctx hn
  subst hd hctx
  obtain ⟨f, i, ev, conn⟩ := ctx0
  simp only at hfd hf hn
  subst hfd hf
  cases c with
  | start =>
    cases stopped <;> simpa [Suspended, Call.run, start] using hn
  | stop close =>
    cases stopped <;> cases i <;> cases close <;>
      simp_all [Suspended, Call.run, stop, sysClose, World.log, World.fail, closeCount,
        List.count_cons]
  | ready events =>
    simpa [Suspended, Call.run, reactorReady, World.log, closeCount, List.count_cons] using hn
  | otherErrno e =>
    simpa [Suspended, Call.run, World.fail] using hn

/-- Every sequence of such calls keeps the `Suspended` invariant (readiness
backend). -/
theorem readiness_suspended_pending (calls : List Call) (d fiber fd n : Nat) (s : TcpConnector × World)
    (h : Suspended d fiber fd n s) : Suspended d fiber fd n (pending calls s) := by
  induction calls generalizing s with
  | nil => simpa [pending] using h
  | cons c calls ih =>
    simp only [pending, List.foldl_cons]
    exact ih _ (readiness_suspended_step c d fiber fd n s h)

/-- `connect` either ends without suspending, leaving the connector as it was
and with the descriptor closed once unless a Connection is returned, or it
suspends in a `Suspended` state. -/
theorem readiness_connect_cases (t : TcpConnector) (w : World) (os : ConnectCalls)
    (address port d fd : Nat) (hd : t.dispatcher = some d) (hc : t.context = none)
    (hs : t.stopped = false) (hfd : os.socket = .ok fd) :
    ((connect t w os address port).1 = .suspended ∧
      Suspended d os.currentContext fd (closeCount fd w.trace + 1)
        ((connect t w os address port).2.1, (connect t w os address port).2.2)) ∨
    ((connect t w os address port).1 = .connection d fd ∧ (connect t w os address port).2.1 = t) ∨
    ((connect t w os address port).1 = .assertFailed ∧ (connect t w os address port).2.1 = t) ∨
    ((∃ m, (connect t w os address port).1 = .runtimeError m) ∧
      (connect t w os address port).2.1 = t ∧
      closeCount fd (connect t w os address port).2.2.trace = closeCount fd w.trace + 1) := by
  obtain ⟨s, b, fg, fs, c, cc, se, ea, cl⟩ := os
  simp only at hfd
  subst hfd
  simp only [connect, hd, hc, hs]
  cases b <;> cases fg <;> cases fs <;> cases c <;> cases ea <;> cases cl <;>
    simp [closeAndThrow, sysClose, World.log, World.fail, closeCount, List.count_cons,
      Suspended, hd] <;>
    split <;> simp [closeCount, hd]

/-- The continuation of `connect` from a `Suspended` state, run in the fiber
that owns the operation. -/
theorem readiness_resumed_cases (d fiber fd n : Nat) (s : TcpConnector × World) (os : ResumeCalls)
    (hf : os.currentContext = fiber) (h : Suspended d fiber fd n s) :
    (connectResumed s.1 s.2 os).2.1 = { s.1 with context := none } ∧
    (((connectResumed s.1 s.2 os).1 = .interrupted ∧
        closeCount fd (connectResumed s.1 s.2 os).2.2.trace = n) ∨
      (connectResumed s.1 s.2 os).1 = .connection d fd ∨
      (connectResumed s.1 s.2 os).1 = .assertFailed ∨
      ((∃ m, (connectResumed s.1 s.2 os).1 = .runtimeError m) ∧
        closeCount fd (connectResumed s.1 s.2 os).2.2.trace = n)) := by
  obtain ⟨⟨dd, ctx, stopped⟩, w⟩ := s
  obtain ⟨hd, ctx0, hctx, hfd, hfib, hn⟩ := h
  simp only at hd hctx hn
  subst hd hctx hf
  obtain ⟨f, i, ev, conn⟩ := ctx0
  simp only at hfd hfib hn
  subst hfd hfib
  obtain ⟨cur, del, gso, cl⟩ := os
  cases i <;> cases del <;> cases gso <;> cases cl <;>
    simp_all [connectResumed, closeAndThrow, sysClose, World.log, World.fail, closeCount,
      List.count_cons] <;>
    (repeat' split) <;> simp_all [closeCount, List.count_cons]

/-- The method `stop` is lines 79-91 followed by line 93. -/
theorem stop_eq_finish_cancel (t : TcpConnector) (w : World) (close : Except Int Unit) :
    stop t w close = stopFinish (stopCancel t w close) := by
  obtain ⟨d, ctx, stopped⟩ := t
  rcases ctx with _ | ⟨f, i, ev, conn⟩ <;> cases d <;> cases stopped <;>
    first
    | (simp [stop, stopCancel, stopFinish]; done)
    | (cases i <;> cases close <;>
        simp [stop, stopCancel, stopFinish, sysClose, World.log, World.fail])

end Linux

namespace Windows

/-- Every call made while `connect` is suspended keeps the `Suspended` invariant
(completion backend). -/
theorem completion_suspended_step (c : Call) (d fiber fd n : Nat) (s : TcpConnector × World)
    (h : Suspended d fiber fd n s) : Suspended d fiber fd n (c.run s) := by
  obtain ⟨⟨dd, stopped, ctx⟩, w⟩ := s
  obtain ⟨hd, ctx0, hctx, hfd, hf, hn⟩ := h
  simp only at hd hctx hn
  subst hd hctx
  obtain ⟨f, conn, i⟩ := ctx0
  simp only at hfd hf hn
  subst hfd hf
  cases c with
  | start =>
    cases stopped <;> simpa [Suspended, Call.run, start] using hn
  | stop cancel =>
    cases stopped <;> cases i <;> cases cancel <;>
      simp_all [Suspended, Call.run, stop, World.log, closeCount, List.count_cons]
    split <;> simp_all [closeCount, List.count_cons]

/-- Every sequence of such calls keeps the `Suspended` invariant (completion
backend). -/
theorem completion_suspended_pending (calls : List Call) (d fiber fd n : Nat) (s : TcpConnector × World)
    (h : Suspended d fiber fd n s) : Suspended d fiber fd n (pending calls s) := by
  induction calls generalizing s with
  | nil => simpa [pending] using h
  | cons c calls ih =>
    simp only [pending, List.foldl_cons]
    exact ih _ (completion_suspended_step c d fiber fd n s h)

/-- On the completion backend `connect` either suspends in a `Suspended` state,
or fails an assertion, or fails with an error having closed the socket once;
it never returns a Connection without suspending. -/
theorem completion_connect_cases (t : TcpConnector) (w : World) (os : ConnectCalls)
    (address port d fd : Nat) (hd : t.dispatcher = some d) (hc : t.context = none)
    (hs : t.stopped = false) (hfd : os.socket = .ok fd) :
    ((connect t w os address port).1 = .suspended ∧
      Suspended d os.currentFiber fd (closeCount fd w.trace)
        ((connect t w os address port).2.1, (connect t w os address port).2.2)) ∨
    ((connect t w os address port).1 = .assertFailed ∧ (connect t w os address port).2.1 = t) ∨
    ((∃ m, (connect t w os address port).1 = .runtimeError m) ∧
      (connect t w os address port).2.1 = t ∧
      closeCount fd (connect t w os address port).2.2.trace = closeCount fd w.trace + 1) := by
  obtain ⟨s, b, io, cp, cx, cf, cl⟩ := os
  simp only at hfd
  subst hfd
  simp only [connect, hd, hc, hs, resolveConnectEx]
  cases b <;> cases io <;> cases cp <;> cases cx <;> cases cl <;> cases hx : w.connectEx <;>
    simp [closeAndThrow, World.log, closeCount, List.count_cons, Suspended, hd, hx] <;>
    (repeat' split) <;> simp_all [closeCount, List.count_cons]

/-- The continuation of `connect` from a `Suspended` state on the completion
backend, run in the fiber that owns the operation. -/
theorem completion_resumed_cases (d fiber fd n : Nat) (s : TcpConnector × World) (os : ResumeCalls)
    (hf : os.currentFiber = fiber) (h : Suspended d fiber fd n s) :
    (connectResumed s.1 s.2 os).2.1 = { s.1 with context := none } ∧
    (((connectResumed s.1 s.2 os).1 = .interrupted ∧
        closeCount fd (connectResumed s.1 s.2 os).2.2.trace = n + 1) ∨
      (connectResumed s.1 s.2 os).1 = .connection d fd ∨
      (connectResumed s.1 s.2 os).1 = .assertFailed ∨
      ((∃ m, (connectResumed s.1 s.2 os).1 = .runtimeError m) ∧
        closeCount fd (connectResumed s.1 s.2 os).2.2.trace = n + 1) ∨
      (closeCount fd (connectResumed s.1 s.2 os).2.2.trace = n ∧
        os.overlappedResult = .error ERROR_OPERATION_ABORTED ∧
        ∃ e, os.closesocket = .error e ∧
          (connectResumed s.1 s.2 os).1 = .runtimeError
            ("TcpConnector::connect, closesocket failed, result=" ++ toString e))) := by
  obtain ⟨⟨dd, stopped, ctx⟩, w⟩ := s
  obtain ⟨hd, ctx0, hctx, hfd, hfib, hn⟩ := h
  simp only at hd hctx hn
  subst hd hctx hf
  obtain ⟨f, conn, i⟩ := ctx0
  simp only at hfd hfib hn
  subst hfd hfib
  obtain ⟨cur, ov, cl, so⟩ := os
  cases i <;> cases ov <;> cases cl <;> cases so <;>
    simp_all [connectResumed, closeAndThrow, World.log, closeCount, List.count_cons] <;>
    (repeat' split) <;> simp_all [closeCount, List.count_cons]

end Windows

/-- A run whose first part suspends continues with `connectResumed`. -/
theorem readiness_run_suspended (t : Linux.TcpConnector) (w : Linux.World)
    (os : Linux.ConnectCalls) (address port : Nat) (calls : List Linux.Call)
    (rs : Linux.ResumeCalls) (h : (Linux.connect t w os address port).1 = .suspended) :
    Linux.connectRun t w os address port calls rs
      = Linux.connectResumed
          (Linux.pending calls ((Linux.connect t w os address port).2.1,
            (Linux.connect t w os address port).2.2)).1
          (Linux.pending calls ((Linux.connect t w os address port).2.1,
            (Linux.connect t w os address port).2.2)).2
          { rs with currentContext := os.currentContext } := by
  unfold Linux.connectRun
  generalize Linux.connect t w os address port = r at h ⊢
  obtain ⟨o, t1, w1⟩ := r
  simp only at h
  subst h
  rfl

/-- A run whose first part does not suspend is that first part. -/
theorem readiness_run_finished (t : Linux.TcpConnector) (w : Linux.World)
    (os : Linux.ConnectCalls) (address port : Nat) (calls : List Linux.Call)
    (rs : Linux.ResumeCalls) (h : (Linux.connect t w os address port).1 ≠ .suspended) :
    Linux.connectRun t w os address port calls rs = Linux.connect t w os address port := by
  unfold Linux.connectRun
  generalize Linux.connect t w os address port = r at h ⊢
  obtain ⟨o, t1, w1⟩ := r
  cases o <;> simp_all

/-- A run whose first part suspends continues with `connectResumed`. -/
theorem completion_run_suspended (t : Windows.TcpConnector) (w : Windows.World)
    (os : Windows.ConnectCalls) (address port : Nat) (calls : List Windows.Call)
    (rs : Windows.ResumeCalls) (h : (Windows.connect t w os address port).1 = .suspended) :
    Windows.connectRun t w os address port calls rs
      = Windows.connectResumed
          (Windows.pending calls ((Windows.connect t w os address port).2.1,
            (Windows.connect t w os address port).2.2)).1
          (Windows.pending calls ((Windows.connect t w os address port).2.1,
            (Windows.connect t w os address port).2.2)).2
          { rs with currentFiber := os.currentFiber } := by
  unfold Windows.connectRun
  generalize Windows.connect t w os address port = r at h ⊢
  obtain ⟨o, t1, w1⟩ := r
  simp only at h
  subst h
  rfl

/-- A run whose first part does not suspend is that first part. -/
theorem completion_run_finished (t : Windows.TcpConnector) (w : Windows.World)
    (os : Windows.ConnectCalls) (address port : Nat) (calls : List Windows.Call)
    (rs : Windows.ResumeCalls) (h : (Windows.connect t w os address port).1 ≠ .suspended) :
    Windows.connectRun t w os address port calls rs = Windows.connect t w os address port := by
  unfold Windows.connectRun
  generalize Windows.connect t w os address port = r at h ⊢
  obtain ⟨o, t1, w1⟩ := r
  cases o <;> simp_all

/-- Claim C1, counterexample: on the completion backend a connect that was
cancelled by `stop()` and whose `closesocket` call fails ends with a
`closesocket failed` error while its descriptor has never been closed. -/
theorem cancelled_connect_with_failed_closesocket :
    (Windows.connectRun (Windows.TcpConnector.construct 0) ⟨false, []⟩ Windows.asyncCalls 1 80
        [.stop (.ok ())]
        { currentFiber := 7, overlappedResult := .error Windows.ERROR_OPERATION_ABORTED,
          closesocket := .error 10035, setsockopt := .ok () }).1
      = .runtimeError "TcpConnector::connect, closesocket failed, result=10035" ∧
    closeCount 3
      (Windows.connectRun (Windows.TcpConnector.construct 0) ⟨false, []⟩ Windows.asyncCalls 1 80
        [.stop (.ok ())]
        { currentFiber := 7, overlappedResult := .error Windows.ERROR_OPERATION_ABORTED,
          closesocket := .error 10035, setsockopt := .ok () }).2.2.trace = 0 := by
  decide

/-- Claim C1, amended: on both backends, for every execution of `connect` in
which socket creation succeeded and the call fails with an interruption or an
error, the descriptor has been closed exactly once (by `stop()` or by
`connect`) when the call fails; the single exception is the completion
backend's cancellation path when `closesocket` itself fails: then the call
fails with the `closesocket failed` error and the descriptor has not been
closed. It is never closed twice. -/
theorem failed_connect_closes_descriptor_once
    (tl : Linux.TcpConnector) (wl : Linux.World) (ol : Linux.ConnectCalls)
    (cl : List Linux.Call) (rl : Linux.ResumeCalls)
    (tw : Windows.TcpConnector) (ww : Windows.World) (ow : Windows.ConnectCalls)
    (cw : List Windows.Call) (rw : Windows.ResumeCalls)
    (address port dl fdl dw fdw : Nat)
    (hl : tl.dispatcher = some dl ∧ tl.context = none ∧ tl.stopped = false ∧
      ol.socket = .ok fdl)
    (hw : tw.dispatcher = some dw ∧ tw.context = none ∧ tw.stopped = false ∧
      ow.socket = .ok fdw) :
    (((Linux.connectRun tl wl ol address port cl rl).1 = .interrupted ∨
        ∃ m, (Linux.connectRun tl wl ol address port cl rl).1 = .runtimeError m) →
      closeCount fdl (Linux.connectRun tl wl ol address port cl rl).2.2.trace
        = closeCount fdl wl.trace + 1) ∧
    (((Windows.connectRun tw ww ow address port cw rw).1 = .interrupted ∨
        ∃ m, (Windows.connectRun tw ww ow address port cw rw).1 = .runtimeError m) →
      closeCount fdw (Windows.connectRun tw ww ow address port cw rw).2.2.trace
          = closeCount fdw ww.trace + 1 ∨
        (closeCount fdw (Windows.connectRun tw ww ow address port cw rw).2.2.trace
            = closeCount fdw ww.trace ∧
          rw.overlappedResult = .error Windows.ERROR_OPERATION_ABORTED ∧
          ∃ e, rw.closesocket = .error e ∧
            (Windows.connectRun tw ww ow address port cw rw).1 = .runtimeError
              ("TcpConnector::connect, closesocket failed, result=" ++ toString e))) := by
  obtain ⟨hl1, hl2, hl3, hl4⟩ := hl
  obtain ⟨hw1, hw2, hw3, hw4⟩ := hw
  constructor
  · intro hout
    rcases Linux.readiness_connect_cases tl wl ol address port dl fdl hl1 hl2 hl3 hl4 with
      ⟨hs, hinv⟩ | ⟨hc, _⟩ | ⟨ha, _⟩ | ⟨⟨m, hm⟩, _, hcount⟩
    · rw [readiness_run_suspended _ _ _ _ _ _ _ hs] at hout ⊢
      have hp := Linux.readiness_suspended_pending cl _ _ _ _ _ hinv
      obtain ⟨_, h⟩ := Linux.readiness_resumed_cases _ _ _ _ _
        { rl with currentContext := ol.currentContext } rfl hp
      rcases h with ⟨_, h⟩ | h | h | ⟨_, h⟩
      · exact h
      · rw [h] at hout; simp at hout
      · rw [h] at hout; simp at hout
      · exact h
    · rw [readiness_run_finished _ _ _ _ _ _ _ (by rw [hc]; simp)] at hout
      rw [hc] at hout; simp at hout
    · rw [readiness_run_finished _ _ _ _ _ _ _ (by rw [ha]; simp)] at hout
      rw [ha] at hout; simp at hout
    · rw [readiness_run_finished _ _ _ _ _ _ _ (by rw [hm]; simp)]
      exact hcount
  · intro hout
    rcases Windows.completion_connect_cases tw ww ow address port dw fdw hw1 hw2 hw3 hw4 with
      ⟨hs, hinv⟩ | ⟨ha, _⟩ | ⟨⟨m, hm⟩, _, hcount⟩
    · rw [completion_run_suspended _ _ _ _ _ _ _ hs] at hout ⊢
      have hp := Windows.completion_suspended_pending cw _ _ _ _ _ hinv
      obtain ⟨_, h⟩ := Windows.completion_resumed_cases _ _ _ _ _
        { rw with currentFiber := ow.currentFiber } rfl hp
      rcases h with ⟨_, h⟩ | h | h | ⟨_, h⟩ | ⟨h1, h2, e, h3, h4⟩
      · exact Or.inl h
      · rw [h] at hout; simp at hout
      · rw [h] at hout; simp at hout
      · exact Or.inl h
      · exact Or.inr ⟨h1, h2, e, h3, h4⟩
    · rw [completion_run_finished _ _ _ _ _ _ _ (by rw [ha]; simp)] at hout
      rw [ha] at hout; simp at hout
    · rw [completion_run_finished _ _ _ _ _ _ _ (by rw [hm]; simp)]
      exact Or.inl hcount

/-- Claim C1, witness: a connect cancelled by `stop()` on either backend. -/
theorem failed_connect_closes_descriptor_once_witness :
    closeCount 3 (Linux.connectRun (Linux.TcpConnector.construct 0) ⟨0, []⟩ Linux.asyncCalls
        1 80 [.stop (.ok ())]
        { currentContext := 7, epollCtlDel := .ok (), getsockopt := .ok 0,
          close := .ok () }).2.2.trace = 1 ∧
    closeCount 3 (Windows.connectRun (Windows.TcpConnector.construct 0) ⟨false, []⟩
        Windows.asyncCalls 1 80 [.stop (.ok ())]
        { currentFiber := 7, overlappedResult := .error Windows.ERROR_OPERATION_ABORTED,
          closesocket := .ok (), setsockopt := .ok () }).2.2.trace = 1 := by
  have h := failed_connect_closes_descriptor_once
    (Linux.TcpConnector.construct 0) ⟨0, []⟩ Linux.asyncCalls [.stop (.ok ())]
    { currentContext := 7, epollCtlDel := .ok (), getsockopt := .ok 0, close := .ok () }
    (Windows.TcpConnector.construct 0) ⟨false, []⟩ Windows.asyncCalls [.stop (.ok ())]
    { currentFiber := 7, overlappedResult := .error Windows.ERROR_OPERATION_ABORTED,
      closesocket := .ok (), setsockopt := .ok () }
    1 80 0 3 0 3 ⟨rfl, rfl, rfl, rfl⟩ ⟨rfl, rfl, rfl, rfl⟩
  refine ⟨h.1 (Or.inl (by decide)), ?_⟩
  rcases h.2 (Or.inl (by decide)) with h2 | ⟨_, _, e, he, _⟩
  · exact h2
  · exact nomatch he

/-- Claim C2, counterexample: on the completion backend `stop()` runs after the
handshake has completed (`CancelIoEx` reports `ERROR_NOT_FOUND`), the
`interrupted` flag is set when `connect` resumes, and `connect` returns a
Connection; with a failed handshake it fails with a generic error. -/
theorem late_stop_still_yields_connection :
    (Windows.pending [.stop (.error Windows.ERROR_NOT_FOUND)]
        ((Windows.connect (Windows.TcpConnector.construct 0) ⟨false, []⟩ Windows.asyncCalls
            1 80).2.1,
          (Windows.connect (Windows.TcpConnector.construct 0) ⟨false, []⟩ Windows.asyncCalls
            1 80).2.2)).1.context
      = some { context := some 7, connection := 3, interrupted := true } ∧
    (Windows.connectRun (Windows.TcpConnector.construct 0) ⟨false, []⟩ Windows.asyncCalls 1 80
        [.stop (.error Windows.ERROR_NOT_FOUND)]
        { currentFiber := 7, overlappedResult := .ok (0, 0), closesocket := .ok (),
          setsockopt := .ok () }).1
      = .connection 0 3 ∧
    (Windows.connectRun (Windows.TcpConnector.construct 0) ⟨false, []⟩ Windows.asyncCalls 1 80
        [.stop (.error Windows.ERROR_NOT_FOUND)]
        { currentFiber := 7, overlappedResult := .error 10061, closesocket := .ok (),
          setsockopt := .ok () }).1
      = .runtimeError "TcpConnector::connect, ConnectEx failed, result=10061" := by
  decide

/-- Claim C2, amended: when the suspended `connect` resumes with the
`interrupted` flag set, the readiness backend always fails with the
interruption signal, whatever the reactor reported. The completion backend
decides by the completion status instead of the flag: it fails with the
interruption signal exactly when the status is operation-aborted and
`closesocket` succeeds, and it returns a Connection when the handshake had
completed successfully. -/
theorem interruption_on_resumption
    (tl : Linux.TcpConnector) (wl : Linux.World) (rl : Linux.ResumeCalls)
    (cl : Linux.TcpConnectorContextExt) (dl : Nat)
    (tw : Windows.TcpConnector) (ww : Windows.World) (rw : Windows.ResumeCalls)
    (cw : Windows.TcpConnectorContext) (dw : Nat)
    (hl : tl.dispatcher = some dl ∧ tl.context = some cl ∧
      cl.context = some rl.currentContext ∧ cl.interrupted = true)
    (hw : tw.dispatcher = some dw ∧ tw.context = some cw ∧
      cw.context = some rw.currentFiber ∧ cw.interrupted = true) :
    Linux.connectResumed tl wl rl = (.interrupted, { tl with context := none }, wl) ∧
    (rw.overlappedResult = .error Windows.ERROR_OPERATION_ABORTED → rw.closesocket = .ok () →
      Windows.connectResumed tw ww rw
        = (.interrupted, { tw with context := none }, ww.log (.close cw.connection))) ∧
    ((Windows.connectResumed tw ww rw).1 = .interrupted →
      rw.overlappedResult = .error Windows.ERROR_OPERATION_ABORTED ∧
        rw.closesocket = .ok ()) ∧
    (rw.overlappedResult = .ok (0, 0) → rw.setsockopt = .ok () →
      Windows.connectResumed tw ww rw
        = (.connection dw cw.connection, { tw with context := none }, ww)) := by
  obtain ⟨hl1, hl2, hl3, hl4⟩ := hl
  obtain ⟨hw1, hw2, hw3, hw4⟩ := hw
  refine ⟨?_, ?_, ?_, ?_⟩
  · simp [Linux.connectResumed, hl1, hl2, hl3, hl4]
  · intro ho hc
    simp [Windows.connectResumed, hw1, hw2, hw3, hw4, ho, hc]
  · obtain ⟨cur, ov, cls, so⟩ := rw
    simp only at hw3
    cases ov <;> cases cls <;> cases so <;>
      simp [Windows.connectResumed, hw1, hw2, hw3, hw4, Windows.closeAndThrow] <;>
      (repeat' split) <;> simp_all
  · intro ho hs
    simp [Windows.connectResumed, hw1, hw2, hw3, hw4, ho, hs]

/-- Claim C2, witness: a resumption with the flag set on either backend. -/
theorem interruption_on_resumption_witness :
    Linux.connectResumed
        { dispatcher := some 0, stopped := true,
          context := some { context := some 7, interrupted := true, events := 4,
                            connection := 3 } }
        ⟨0, []⟩ { currentContext := 7, epollCtlDel := .ok (), getsockopt := .ok 0,
                  close := .ok () }
      = (.interrupted, { dispatcher := some 0, stopped := true, context := none }, ⟨0, []⟩) ∧
    Windows.connectResumed
        { dispatcher := some 0, stopped := true,
          context := some { context := some 7, connection := 3, interrupted := true } }
        ⟨true, []⟩ { currentFiber := 7, overlappedResult := .ok (0, 0), closesocket := .ok (),
                     setsockopt := .ok () }
      = (.connection 0 3, { dispatcher := some 0, stopped := true, context := none },
          ⟨true, []⟩) :=
  have h := interruption_on_resumption
    { dispatcher := some 0, stopped := true,
      context := some { context := some 7, interrupted := true, events := 4, connection := 3 } }
    ⟨0, []⟩ { currentContext := 7, epollCtlDel := .ok (), getsockopt := .ok 0, close := .ok () }
    { context := some 7, interrupted := true, events := 4, connection := 3 } 0
    { dispatcher := some 0, stopped := true,
      context := some { context := some 7, connection := 3, interrupted := true } }
    ⟨true, []⟩ { currentFiber := 7, overlappedResult := .ok (0, 0), closesocket := .ok (),
                 setsockopt := .ok () }
    { context := some 7, connection := 3, interrupted := true } 0
    ⟨rfl, rfl, rfl, rfl⟩ ⟨rfl, rfl, rfl, rfl⟩
  ⟨h.1, h.2.2.2 rfl rfl⟩

/-- Claim C3: on both backends `connect` on a bound connector with no active
operation and the stopped flag set fails at once with the interruption
signal, for every address and port and whatever the system would answer; the
connector and the world (no descriptor, no registration, no suspension) are
unchanged. -/
theorem connect_on_stopped_connector_interrupts
    (tl : Linux.TcpConnector) (wl : Linux.World) (ol : Linux.ConnectCalls)
    (tw : Windows.TcpConnector) (ww : Windows.World) (ow : Windows.ConnectCalls)
    (address port : Nat)
    (hl : tl.dispatcher.isSome = true ∧ tl.context = none ∧ tl.stopped = true)
    (hw : tw.dispatcher.isSome = true ∧ tw.context = none ∧ tw.stopped = true) :
    Linux.connect tl wl ol address port = (.interrupted, tl, wl) ∧
    Windows.connect tw ww ow address port = (.interrupted, tw, ww) := by
  obtain ⟨hl1, hl2, hl3⟩ := hl
  obtain ⟨hw1, hw2, hw3⟩ := hw
  constructor
  · cases hd : tl.dispatcher with
    | none => simp [hd] at hl1
    | some d => simp [Linux.connect, hd, hl2, hl3]
  · cases hd : tw.dispatcher with
    | none => simp [hd] at hw1
    | some d => simp [Windows.connect, hd, hw2, hw3]

/-- Claim C3, witness: stopped connectors on both backends. -/
theorem connect_on_stopped_connector_interrupts_witness :
    Linux.connect { dispatcher := some 0, context := none, stopped := true } ⟨0, []⟩
        Linux.asyncCalls 1 80
      = (.interrupted, { dispatcher := some 0, context := none, stopped := true }, ⟨0, []⟩) ∧
    Windows.connect { dispatcher := some 0, stopped := true, context := none } ⟨false, []⟩
        Windows.asyncCalls 1 80
      = (.interrupted, { dispatcher := some 0, stopped := true, context := none }, ⟨false, []⟩) :=
  connect_on_stopped_connector_interrupts _ _ _ _ _ _ 1 80 (by decide) (by decide)

/-- Claim C4, counterexample: on a freshly constructed bound connector `start()`
is rejected by its assertion, and `connect` called before any `start()`
allocates a descriptor. -/
theorem fresh_connector_start_rejected :
    (Linux.start (Linux.TcpConnector.construct 0)).1 = Outcome.assertFailed ∧
    (Windows.start (Windows.TcpConnector.construct 0)).1 = Outcome.assertFailed ∧
    socketCount (Linux.connect (Linux.TcpConnector.construct 0) ⟨0, []⟩
      Linux.asyncCalls 1 80).2.2.trace = 1 ∧
    socketCount (Windows.connect (Windows.TcpConnector.construct 0) ⟨false, []⟩
      Windows.asyncCalls 1 80).2.2.trace = 1 := by
  decide

/-- Claim C4, amended: a connector newly created bound to a dispatcher is in the
Started state (`stopped = false`) on both backends: `start()` on it is
rejected by its precondition, `stop()` satisfies its precondition and only
sets the flag, `start()` succeeds after that `stop()`, and `connect` called
before any `start()` proceeds to socket creation. -/
theorem fresh_connector_is_started (d : Nat) :
    ((Linux.TcpConnector.construct d).stopped = false ∧
      Linux.start (Linux.TcpConnector.construct d)
        = (.assertFailed, Linux.TcpConnector.construct d) ∧
      (∀ w c, Linux.stop (Linux.TcpConnector.construct d) w c
        = (.done, { Linux.TcpConnector.construct d with stopped := true }, w)) ∧
      Linux.start { Linux.TcpConnector.construct d with stopped := true }
        = (.done, Linux.TcpConnector.construct d) ∧
      (∀ w os address port,
        (∃ e, os.socket = .error e ∧
          (Linux.connect (Linux.TcpConnector.construct d) w os address port).1
            = .runtimeError ("TcpConnector::connect, " ++ ("socket() failed, errno=" ++ toString e))) ∨
        (∃ fd, os.socket = .ok fd ∧
          Event.socket fd ∈
            (Linux.connect (Linux.TcpConnector.construct d) w os address port).2.2.trace))) ∧
    ((Windows.TcpConnector.construct d).stopped = false ∧
      Windows.start (Windows.TcpConnector.construct d)
        = (.assertFailed, Windows.TcpConnector.construct d) ∧
      (∀ w c, Windows.stop (Windows.TcpConnector.construct d) w c
        = (.done, { Windows.TcpConnector.construct d with stopped := true }, w)) ∧
      Windows.start { Windows.TcpConnector.construct d with stopped := true }
        = (.done, Windows.TcpConnector.construct d) ∧
      (∀ w os address port,
        (∃ e, os.socket = .error e ∧
          (Windows.connect (Windows.TcpConnector.construct d) w os address port).1
            = .runtimeError ("TcpConnector::connect, " ++ ("socket failed, result=" ++ toString e))) ∨
        (∃ fd, os.socket = .ok fd ∧
          Event.socket fd ∈
            (Windows.connect (Windows.TcpConnector.construct d) w os address port).2.2.trace))) := by
  refine ⟨⟨rfl, rfl, fun w c => rfl, rfl, ?_⟩, ⟨rfl, rfl, fun w c => rfl, rfl, ?_⟩⟩
  · intro w os address port
    obtain ⟨s, b, fg, fs, c, cc, se, ea, cl⟩ := os
    cases s with
    | error e => left; exact ⟨e, rfl, rfl⟩
    | ok fd =>
      right
      refine ⟨fd, rfl, ?_⟩
      simp only [Linux.connect, Linux.TcpConnector.construct]
      cases b <;> cases fg <;> cases fs <;> cases c <;> cases ea <;> cases cl <;>
        simp [Linux.closeAndThrow, Linux.sysClose, Linux.World.log, Linux.World.fail] <;>
        split <;> simp
  · intro w os address port
    obtain ⟨s, b, io, cp, cx, cf, cl⟩ := os
    cases s with
    | error e => left; exact ⟨e, rfl, rfl⟩
    | ok fd =>
      right
      refine ⟨fd, rfl, ?_⟩
      simp only [Windows.connect, Windows.TcpConnector.construct, Windows.resolveConnectEx]
      cases b <;> cases io <;> cases cp <;> cases cx <;> cases cl <;> cases hx : w.connectEx <;>
        simp [Windows.closeAndThrow, Windows.World.log, hx] <;>
        (repeat' split) <;> simp

/-- Claim C5, the code at the failing input: the handshake goes asynchronous
(`errno` is left at `EINPROGRESS` = 115), the reactor reports write
readiness, and `getsockopt(SO_ERROR)` succeeds with the pending error 111.
The descriptor is closed and `connect` fails, but the message carries the
stale `errno` 115 and not the value 111 read from the socket. -/
theorem so_error_reported_as_errno :
    Linux.connectRun (Linux.TcpConnector.construct 0) ⟨0, []⟩ Linux.asyncCalls 1 80
        [.ready 4] { currentContext := 7, epollCtlDel := .ok (), getsockopt := .ok 111,
                     close := .ok () }
      = (.runtimeError "TcpConnector::connect, connect failed; getsockopt retval =115",
          Linux.TcpConnector.construct 0,
          ⟨115, [.close 3, .unregistered 3, .pushContext (some 7), .dispatch 7, .registered 3,
                 .connect 3 1 80, .socket 3]⟩) := by
  decide

/-- Claim C6, the code at the failing input: on the readiness backend the
connect primitive fails with `ECONNREFUSED` = 111 instead of `EINPROGRESS`.
The descriptor is closed and nothing suspends, but the message after the
fixed text is empty: it names neither the phase nor the error code. -/
theorem connect_refused_message_empty :
    Linux.connect (Linux.TcpConnector.construct 0) ⟨0, []⟩
        { Linux.asyncCalls with connect := .error 111 } 1 80
      = (.runtimeError "TcpConnector::connect, ", Linux.TcpConnector.construct 0,
          ⟨111, [.close 3, .connect 3 1 80, .socket 3]⟩) := by
  decide

/-- Claim C9, counterexample: `stop()` on a pending connect whose close succeeds.
When the blocked fiber has just been re-queued (`pushContext` is the newest
effect, after lines 79-91) the stopped flag is still `false`; it is set by the
last statement of `stop`, after the re-queue. -/
theorem stopped_flag_set_after_requeue :
    Linux.stopCancel Linux.suspendedConnector ⟨0, []⟩ (.ok ())
      = (.done,
          { dispatcher := some 0, stopped := false,
            context := some { context := some 7, interrupted := true, events := 0,
                              connection := 3 } },
          ⟨0, [.pushContext (some 7), .interruptedSet 3, .close 3]⟩) ∧
    Linux.stop Linux.suspendedConnector ⟨0, []⟩ (.ok ())
      = Linux.stopFinish (Linux.stopCancel Linux.suspendedConnector ⟨0, []⟩ (.ok ())) ∧
    Linux.stop Linux.suspendedConnector ⟨0, []⟩ (.ok ())
      = (.done,
          { dispatcher := some 0, stopped := true,
            context := some { context := some 7, interrupted := true, events := 0,
                              connection := 3 } },
          ⟨0, [.pushContext (some 7), .interruptedSet 3, .close 3]⟩) := by
  decide

/-- Claim C9, amended: readiness-backend `stop()` on a bound, started connector.
With no operation active it only sets the stopped flag: nothing is closed or
re-queued, whatever the system would answer. With an operation active and not
yet interrupted and the close succeeding, it closes the operation's
descriptor, then sets `interrupted`, then re-queues the blocked fiber, each
exactly once and in that order; at the re-queue the stopped flag is still
unset, and `stop` sets it afterwards, as its last statement, before it
returns. -/
theorem readiness_stop_effects
    (t : Linux.TcpConnector) (w : Linux.World) (close : Except Int Unit)
    (t2 : Linux.TcpConnector) (w2 : Linux.World)
    (connectorContext : Linux.TcpConnectorContextExt)
    (h : t.dispatcher.isSome = true ∧ t.stopped = false ∧ t.context = none)
    (h2 : t2.dispatcher.isSome = true ∧ t2.stopped = false ∧
      t2.context = some connectorContext ∧ connectorContext.interrupted = false) :
    Linux.stop t w close = (.done, { t with stopped := true }, w) ∧
    Linux.stop t2 w2 (.ok ())
      = (.done,
          { t2 with context := some { connectorContext with interrupted := true },
                    stopped := true },
          { w2 with trace := .pushContext connectorContext.context ::
                             .interruptedSet connectorContext.connection ::
                             .close connectorContext.connection :: w2.trace }) ∧
    closeCount connectorContext.connection (Linux.stop t2 w2 (.ok ())).2.2.trace
      = closeCount connectorContext.connection w2.trace + 1 ∧
    pushCount connectorContext.context (Linux.stop t2 w2 (.ok ())).2.2.trace
      = pushCount connectorContext.context w2.trace + 1 ∧
    Linux.stopCancel t2 w2 (.ok ())
      = (.done,
          { t2 with context := some { connectorContext with interrupted := true },
                    stopped := false },
          { w2 with trace := .pushContext connectorContext.context ::
                             .interruptedSet connectorContext.connection ::
                             .close connectorContext.connection :: w2.trace }) ∧
    Linux.stop t2 w2 (.ok ()) = Linux.stopFinish (Linux.stopCancel t2 w2 (.ok ())) := by
  obtain ⟨hd, hs, hc⟩ := h
  obtain ⟨hd2, hs2, hc2, hi2⟩ := h2
  have e2 : Linux.stop t2 w2 (.ok ())
      = (.done,
          { t2 with context := some { connectorContext with interrupted := true },
                    stopped := true },
          { w2 with trace := .pushContext connectorContext.context ::
                             .interruptedSet connectorContext.connection ::
                             .close connectorContext.connection :: w2.trace }) := by
    cases hd' : t2.dispatcher with
    | none => simp [hd'] at hd2
    | some d => simp [Linux.stop, hd', hs2, hc2, hi2, Linux.sysClose, Linux.World.log]
  refine ⟨?_, e2, ?_, ?_, ?_, Linux.stop_eq_finish_cancel t2 w2 (.ok ())⟩
  · cases hd' : t.dispatcher with
    | none => simp [hd'] at hd
    | some d => simp [Linux.stop, hd', hs, hc]
  · rw [e2]; simp [closeCount, List.count_cons]
  · rw [e2]; simp [pushCount, List.count_cons]
  · obtain ⟨d, ctx, stopped⟩ := t2
    simp only at hs2 hc2
    subst hs2 hc2
    cases d with
    | none => simp at hd2
    | some d => simp [Linux.stopCancel, hi2, Linux.sysClose, Linux.World.log]

/-- Claim C9, witness: an idle started connector and one with a pending connect. -/
theorem readiness_stop_effects_witness :
    Linux.stop (Linux.TcpConnector.construct 0) ⟨0, []⟩ (.error 9)
      = (.done, { dispatcher := some 0, context := none, stopped := true }, ⟨0, []⟩) ∧
    Linux.stop Linux.suspendedConnector ⟨0, []⟩ (.ok ())
      = (.done,
          { dispatcher := some 0, stopped := true,
            context := some { context := some 7, interrupted := true, events := 0,
                              connection := 3 } },
          ⟨0, [.pushContext (some 7), .interruptedSet 3, .close 3]⟩) ∧
    (Linux.stopCancel Linux.suspendedConnector ⟨0, []⟩ (.ok ())).2.1.stopped = false :=
  have h := readiness_stop_effects (Linux.TcpConnector.construct 0) ⟨0, []⟩ (.error 9)
    Linux.suspendedConnector ⟨0, []⟩
    { context := some 7, interrupted := false, events := 0, connection := 3 }
    ⟨rfl, rfl, rfl⟩ ⟨rfl, rfl, rfl, rfl⟩
  ⟨h.1, h.2.1, by rw [h.2.2.2.2.1]⟩

/-- Claim C10: on the completion backend, when socket creation, bind,
resolution of the extension routine and the association with the completion
port succeed and `ConnectEx` returns immediate success, `connect` publishes no
context and does not suspend; it closes the descriptor and fails with the
error "ConnectEx returned immediately, which is not supported.". Only when
that `closesocket` call itself fails does the assertion on its result fail
instead. -/
theorem immediate_connectEx_unsupported (t : Windows.TcpConnector) (w : Windows.World)
    (os : Windows.ConnectCalls) (address port d fd : Nat)
    (hd : t.dispatcher = some d) (hc : t.context = none) (hs : t.stopped = false)
    (hsock : os.socket = .ok fd) (hbind : os.bind = .ok ())
    (hres : w.connectEx = true ∨ os.wsaIoctl = .ok true)
    (hport : os.createIoCompletionPort = .ok ()) (hcx : os.connectEx = .ok ()) :
    (os.closesocket = .ok () →
      Windows.connect t w os address port
        = (.runtimeError
            "TcpConnector::connect, ConnectEx returned immediately, which is not supported.",
           t,
           { connectEx := true,
             trace := .close fd :: .connect fd address port :: .registered fd ::
                        .socket fd :: w.trace })) ∧
    (∀ e, os.closesocket = .error e →
      Windows.connect t w os address port
        = (.assertFailed, t,
           { connectEx := true,
             trace := .closeFailed fd :: .connect fd address port :: .registered fd ::
                        .socket fd :: w.trace })) := by
  have hr : Windows.resolveConnectEx (w.log (.socket fd)) os.wsaIoctl
      = .ok ({ connectEx := true, trace := .socket fd :: w.trace }, true) := by
    unfold Windows.resolveConnectEx Windows.World.log
    cases hx : w.connectEx with
    | true => simp
    | false =>
      rcases hres with h | h
      · simp [hx] at h
      · simp [h]
  constructor
  · intro hcl
    simp only [Windows.connect, hd, hc, hs, hsock, hbind, hr, hport, hcx, hcl]
    simp [Windows.closeAndThrow, Windows.World.log]
  · intro e hcl
    simp only [Windows.connect, hd, hc, hs, hsock, hbind, hr, hport, hcx, hcl]
    simp [Windows.closeAndThrow, Windows.World.log]

/-- Claim C10, witness: a fresh connector whose `ConnectEx` returns `TRUE`. -/
theorem immediate_connectEx_unsupported_witness :
    Windows.connect (Windows.TcpConnector.construct 0) ⟨false, []⟩
        { Windows.asyncCalls with connectEx := .ok () } 1 80
      = (.runtimeError
          "TcpConnector::connect, ConnectEx returned immediately, which is not supported.",
         Windows.TcpConnector.construct 0,
         { connectEx := true,
           trace := [.close 3, .connect 3 1 80, .registered 3, .socket 3] }) :=
  (immediate_connectEx_unsupported (Windows.TcpConnector.construct 0) ⟨false, []⟩
    { Windows.asyncCalls with connectEx := .ok () } 1 80 0 3 rfl rfl rfl rfl rfl
    (Or.inr rfl) rfl rfl).1 rfl

end System
